import Mathlib

/-!
Shallow embedding of the entitlement/run-coordination core of the
fluffy-octo-memory backend (`server.js`): the Entitlement Record Store,
the Access Entitlement Gate (`ensureUserExists` + `checkUserPlan`), the
Billing Event Reconciler (the `/api/webhook` handler), and the
post-polling part of the Run Lifecycle Coordinator (`/api/chat`).

Naming map between the spec's vocabulary and the source's field values:
`plan = trialing/active/expired` are the `planStatus` strings
`"trial"/"premium"/"expired"`; `trialExpiry` is `trialEndsAt`;
`billingCustomerRef`/`billingSubscriptionRef` are
`stripeCustomerId`/`stripeSubscriptionId`.  Times are modelled as `Nat`
milliseconds since the epoch (JS `Date` comparison is numeric).
-/

/-- Embeds the mongoose `User` document: `auth0Id`, `email`, `name`,
`planStatus`, `trialEndsAt`, `stripeCustomerId`, `stripeSubscriptionId`
as read and written by `server.js`. -/
structure UserRecord where
  auth0Id : String
  email : Option String
  name : Option String
  planStatus : String
  trialEndsAt : Option Nat
  stripeCustomerId : Option String
  stripeSubscriptionId : Option String
deriving DecidableEq

/-- The user collection: `User.findOne` is a first-match scan, `save`
replaces the matched document. -/
abbrev Store := List UserRecord

/-- Key predicate for `User.findOne({ auth0Id })`. -/
def byAuth0Id (id : String) (r : UserRecord) : Bool := r.auth0Id == id

/-- Key predicate for `User.findOne({ stripeCustomerId })`. -/
def byCustomer (c : String) (r : UserRecord) : Bool :=
  r.stripeCustomerId == some c

/-- Embeds a mongoose `save` of a modified document: replace the first
record matching `p` by its image under `f`, leaving the rest untouched. -/
def updateFirst {α : Type} (p : α → Bool) (f : α → α) : List α → List α
  | [] => []
  | a :: l => if p a then f a :: l else a :: updateFirst p f l

/-- Trial duration from `ensureUserExists`:
`7 * 24 * 60 * 60 * 1000` milliseconds. -/
def trialDurationMs : Nat := 7 * 24 * 60 * 60 * 1000

/-- The document created for a first-time identity
(`new User({auth0Id, email, name, planStatus: 'trial', trialEndsAt: now + 7d})`). -/
def freshUser (id : String) (email name : Option String) (now : Nat) :
    UserRecord :=
  { auth0Id := id, email := email, name := name, planStatus := "trial",
    trialEndsAt := some (now + trialDurationMs),
    stripeCustomerId := none, stripeSubscriptionId := none }

/-- The existing-user branch of `ensureUserExists`:
`if (!user.email && email) user.email = email;` and likewise for `name`. -/
def backfill (email name : Option String) (r : UserRecord) : UserRecord :=
  { r with
    email := match r.email, email with
      | none, some e => some e
      | _, _ => r.email,
    name := match r.name, name with
      | none, some n => some n
      | _, _ => r.name }

/-- Embeds the `ensureUserExists` middleware: look the identity up; on
absence create a trial record (7-day expiry) and append it; on presence
backfill email/name and save.  Returns the document attached as
`req.userRecord` together with the store after the save. -/
def ensureUserExists (id : String) (email name : Option String) (now : Nat)
    (store : Store) : UserRecord × Store :=
  match store.find? (byAuth0Id id) with
  | none =>
      let u := freshUser id email name now
      (u, store ++ [u])
  | some u =>
      (backfill email name u, updateFirst (byAuth0Id id) (backfill email name) store)

/-- Outcome of the plan-check middleware: `next()` or a concrete
`res.status(403).json({error, planStatus})` denial. -/
inductive GateResult
  | allow
  | deny (httpStatus : Nat) (error : String) (planStatusField : String)
deriving DecidableEq

/-- Embeds the `checkUserPlan` middleware of `server.js`:
trial with a passed `trialEndsAt` is denied after writing
`planStatus = 'expired'` back (note: `trialEndsAt` itself is not
touched by that write); trial otherwise (including a missing
`trialEndsAt`, which the code's `user.trialEndsAt &&` guard lets
through) and premium pass; expired and unknown plan values are denied
without mutation. -/
def checkUserPlan (user : UserRecord) (now : Nat) (store : Store) :
    GateResult × Store :=
  if user.planStatus = "trial" then
    match user.trialEndsAt with
    | some t =>
        if t < now then
          (GateResult.deny 403
             "Your trial has expired. Please upgrade to a premium plan."
             "expired",
           if user.planStatus ≠ "expired" then
             updateFirst (byAuth0Id user.auth0Id)
               (fun r => { r with planStatus := "expired" }) store
           else store)
        else (GateResult.allow, store)
    | none => (GateResult.allow, store)
  else if user.planStatus = "premium" then (GateResult.allow, store)
  else if user.planStatus = "expired" then
    (GateResult.deny 403
       "Your plan has expired. Please upgrade to a premium plan to continue."
       "expired",
     store)
  else
    (GateResult.deny 403
       "Access denied due to unknown plan status. Please contact support."
       "unknown",
     store)

/-- One protected request through the Gate: `ensureUserExists` then
`checkUserPlan` on the attached record. -/
def gateStep (id : String) (email name : Option String) (now : Nat)
    (store : Store) : GateResult × Store :=
  let p := ensureUserExists id email name now store
  checkUserPlan p.1 now p.2

/-- The `subscription` object of a Stripe
`customer.subscription.created/updated/deleted` event, with
`trial_end` in seconds as on the wire. -/
structure Subscription where
  id : String
  customer : String
  status : String
  trial_end : Nat
deriving DecidableEq

/-- Billing events handled by the `/api/webhook` switch. -/
inductive StripeEvent
  | subscriptionCreatedOrUpdated (s : Subscription)
  | subscriptionDeleted (s : Subscription)
  | invoicePaid (customer : String)
  | invoicePaymentFailed (customer : String)
deriving DecidableEq

/-- The `customer.subscription.created/updated` handler body:
status `active` gives `premium`, `trialing` gives `trial` with
`trialEndsAt = trial_end * 1000`, everything else (including
`past_due`, `canceled`, `unpaid`) falls to the initial `'expired'`;
`stripeSubscriptionId` is overwritten with the event's subscription id
and `trialEndsAt` is nulled outside the trialing case. -/
def applySubscriptionUpdate (s : Subscription) (r : UserRecord) : UserRecord :=
  { r with
    planStatus :=
      if s.status = "active" then "premium"
      else if s.status = "trialing" then "trial"
      else "expired",
    trialEndsAt :=
      if s.status = "trialing" then some (s.trial_end * 1000) else none,
    stripeSubscriptionId := some s.id }

/-- The `customer.subscription.deleted` handler body. -/
def applySubscriptionDeleted (r : UserRecord) : UserRecord :=
  { r with planStatus := "expired", stripeSubscriptionId := none,
           trialEndsAt := none }

/-- The `invoice.payment_failed` handler body: only `planStatus` is
written; `trialEndsAt` and `stripeSubscriptionId` are left as they are. -/
def applyInvoicePaymentFailed (r : UserRecord) : UserRecord :=
  { r with planStatus := "expired" }

/-- Embeds the `/api/webhook` route: each event looks its user up by
`stripeCustomerId` and saves the rewritten document; an unmatched
customer reference and `invoice.paid` leave the store unchanged. -/
def applyWebhook : StripeEvent → Store → Store
  | .subscriptionCreatedOrUpdated s, store =>
      updateFirst (byCustomer s.customer) (applySubscriptionUpdate s) store
  | .subscriptionDeleted s, store =>
      updateFirst (byCustomer s.customer) applySubscriptionDeleted store
  | .invoicePaid _, store => store
  | .invoicePaymentFailed c, store =>
      updateFirst (byCustomer c) applyInvoicePaymentFailed store

/-- One operation touching the Entitlement Record Store: a gated
request (at an arbitrary request time `now`) or a billing event. -/
inductive CoreOp
  | gate (id : String) (email name : Option String) (now : Nat)
  | billing (e : StripeEvent)

/-- Store effect of one core operation. -/
def stepStore : CoreOp → Store → Store
  | .gate id email name now, store => (gateStep id email name now store).2
  | .billing e, store => applyWebhook e store

/-- Modelled from the spec: an operation is a successful-payment
billing event matching record `r` when it is a
subscription-created/updated event with status `active` or `trialing`
whose customer reference equals the record's `stripeCustomerId`. -/
def isRevivalFor (r : UserRecord) : CoreOp → Prop
  | .billing (.subscriptionCreatedOrUpdated s) =>
      (s.status = "active" ∨ s.status = "trialing") ∧
        r.stripeCustomerId = some s.customer
  | _ => False

/-- One entry of `run.required_action.submit_tool_outputs.tool_calls`
(`toolCall.function.name` / `toolCall.function.arguments` flattened). -/
structure ToolCall where
  id : String
  functionName : String
  functionArguments : String
deriving DecidableEq

/-- One element of the `tool_outputs` batch submitted back. -/
structure ToolOutput where
  tool_call_id : String
  output : String
deriving DecidableEq

/-- The `run.last_error` object. -/
structure LastError where
  code : String
  message : String
deriving DecidableEq

/-- A polled assistant run as seen by the `/api/chat` handler.
`requiredActionToolCalls` is `some calls` exactly when
`run.required_action` is present, flattening
`required_action.submit_tool_outputs.tool_calls`. -/
structure RunState where
  id : String
  thread_id : String
  status : String
  last_error : Option LastError
  requiredActionToolCalls : Option (List ToolCall)
deriving DecidableEq

/-- One entry of a message's `content` array; `textValue` flattens
`content[i].text.value` and is meaningful when `type = "text"`. -/
structure ContentPart where
  type : String
  textValue : String
deriving DecidableEq

/-- One message from the list-messages response (`messagesData.data`),
in the order the service returns them (newest first). -/
structure ThreadMessage where
  role : String
  run_id : String
  content : List ContentPart
deriving DecidableEq

/-- A thrown JavaScript error caught by the handler's `catch`. -/
inductive JsCrash
  | typeError
deriving DecidableEq

/-- The fixed fallback reply of the completed-run path. -/
def fallbackReplyText : String :=
  "No response found from assistant for this request (it might still be processing or generated non-text output)."

/-- The default dummy output of the tool dispatcher. -/
def dummyToolOutput : String :=
  "Tool function executed successfully with dummy output."

/-- The fixed `get_current_weather` output,
`JSON.stringify({temperature: 22, unit: "celsius", description: "Sunny"})`. -/
def weatherToolOutput : String :=
  "\x7b\"temperature\":22,\"unit\":\"celsius\",\"description\":\"Sunny\"\x7d"

/-- The tool dispatcher inside the requires-action block: a dummy
default, overridden for `get_current_weather` and `get_time` (the
latter's wall-clock string is passed in as `timeStr`). -/
def dispatchToolCall (timeStr : String) (name : String) : String :=
  if name = "get_current_weather" then weatherToolOutput
  else if name = "get_time" then timeStr
  else dummyToolOutput

/-- The `toolOutputs` array built by mapping the dispatcher over
`tool_calls`, each output tagged with its `tool_call_id`. -/
def computeToolOutputs (timeStr : String) (calls : List ToolCall) :
    List ToolOutput :=
  calls.map (fun tc => ⟨tc.id, dispatchToolCall timeStr tc.functionName⟩)

/-- The requires-action step of the polling loop: when the polled run
is `requires_action` with a present `required_action`, one batch of
tool outputs is produced and submitted in a single
`submit_tool_outputs` call; otherwise nothing is submitted. -/
def requiresActionStep (timeStr : String) (run : RunState) :
    Option (List ToolOutput) :=
  if run.status = "requires_action" then
    run.requiredActionToolCalls.map (computeToolOutputs timeStr)
  else none

/-- Embeds the reply-extraction `find`:
`msgs.find(m => m.role === 'assistant' && m.run_id === run.id &&
m.content[0].type === 'text')`, including the JavaScript `TypeError`
raised when the short-circuited conjunction reaches `content[0].type`
on an empty `content` array; on a hit the reply is
`content[0].text.value`. -/
def findAssistantText (runId : String) :
    List ThreadMessage → Except JsCrash (Option String)
  | [] => .ok none
  | m :: rest =>
      if m.role == "assistant" && m.run_id == runId then
        match m.content with
        | [] => .error .typeError
        | c :: _ =>
            if c.type == "text" then .ok (some c.textValue)
            else findAssistantText runId rest
      else findAssistantText runId rest

/-- Response body shapes of the `/api/chat` handler after the polling
loop: a 200 `{response}` reply, the 500
`{error: 'Assistant processing failed.', details, code}` produced for
a failed run, or the catch-all 500
`{error: 'Failed to get assistant response', ...}`. -/
inductive ChatBody
  | response (text : String)
  | assistantRunFailed (details : String) (code : String)
  | caughtServerError
deriving DecidableEq

/-- An HTTP response of the chat route: status plus body shape. -/
structure HttpReply where
  status : Nat
  body : ChatBody
deriving DecidableEq

/-- Embeds the `/api/chat` handler after the polling loop has exited:
a failed run yields the classified 500 carrying
`last_error.code`/`last_error.message` (with the literal fallbacks
when `last_error` is absent); otherwise messages are listed and the
reply extracted, an extraction crash landing in the catch-all 500 and
an extraction miss yielding the 200 fallback string. -/
def respondAfterPolling (run : RunState) (msgs : List ThreadMessage) :
    HttpReply :=
  if run.status = "failed" then
    { status := 500,
      body := ChatBody.assistantRunFailed
        (match run.last_error with
         | some e => e.message
         | none => "Unknown failure")
        (match run.last_error with
         | some e => e.code
         | none => "UNKNOWN_FAILURE") }
  else
    match findAssistantText run.id msgs with
    | .error _ => { status := 500, body := ChatBody.caughtServerError }
    | .ok (some t) => { status := 200, body := ChatBody.response t }
    | .ok none => { status := 200, body := ChatBody.response fallbackReplyText }

/-- Modelled from the spec: the claim's selection conditions on a
listed message — role assistant, run reference equal to this run's id,
and its content being text (read off the leading content part). -/
def claimMatches (runId : String) (m : ThreadMessage) : Bool :=
  m.role == "assistant" && m.run_id == runId &&
    (match m.content.head? with
     | some c => c.type == "text"
     | none => false)

/-- Modelled from the spec: the reply source is the newest message
satisfying `claimMatches` (the list is newest-first, so the first
match), its text being the leading content part's value. -/
def specNewestText (runId : String) (msgs : List ThreadMessage) :
    Option String :=
  (msgs.find? (claimMatches runId)).bind
    (fun m => m.content.head?.map (fun c => c.textValue))

/-- Concrete trialing record whose trial expired at time 0, with no
billing linkage; used as input to the Gate at request time 1. -/
def cexTrialRecord : UserRecord :=
  { auth0Id := "u1", email := none, name := none, planStatus := "trial",
    trialEndsAt := some 0, stripeCustomerId := none,
    stripeSubscriptionId := none }

/-- Concrete trialing record linked to billing customer `cus1` with a
pending trial expiry and a subscription reference. -/
def cexBilledRecord : UserRecord :=
  { auth0Id := "u1", email := none, name := none, planStatus := "trial",
    trialEndsAt := some 999, stripeCustomerId := some "cus1",
    stripeSubscriptionId := some "sub1" }

/-- Concrete expired record linked to billing customer `cus1`. -/
def cexExpiredRecord : UserRecord :=
  { auth0Id := "u1", email := none, name := none, planStatus := "expired",
    trialEndsAt := none, stripeCustomerId := some "cus1",
    stripeSubscriptionId := none }

/-- Concrete completed run used in coordinator statements. -/
def cexCompletedRun : RunState :=
  { id := "run1", thread_id := "t1", status := "completed",
    last_error := none, requiredActionToolCalls := none }

/-- Concrete assistant message of run `run1` with an empty `content`
array. -/
def cexEmptyContentMsg : ThreadMessage :=
  { role := "assistant", run_id := "run1", content := [] }

/-- Concrete assistant text message of run `run1`. -/
def cexTextMsg : ThreadMessage :=
  { role := "assistant", run_id := "run1",
    content := [{ type := "text", textValue := "hello" }] }

/-- Concrete failed run carrying `last_error = {code: "x", message: "y"}`. -/
def cexFailedRun : RunState :=
  { id := "run2", thread_id := "t1", status := "failed",
    last_error := some { code := "x", message := "y" },
    requiredActionToolCalls := none }

/-- Concrete pending tool call with a name unknown to the dispatcher. -/
def cexUnknownToolCall : ToolCall :=
  { id := "call1", functionName := "launch_rocket", functionArguments := "" }

/-- Concrete requires-action run pausing on the unknown tool call. -/
def cexRequiresActionRun : RunState :=
  { id := "run3", thread_id := "t1", status := "requires_action",
    last_error := none,
    requiredActionToolCalls := some [cexUnknownToolCall] }

/-- Concrete trialing record whose trial expiry lies ahead of request
time 5. -/
def cexActiveTrialRecord : UserRecord :=
  { auth0Id := "u2", email := none, name := none, planStatus := "trial",
    trialEndsAt := some 10, stripeCustomerId := none,
    stripeSubscriptionId := none }

/-- Concrete trialing record with no `trialEndsAt` value present. -/
def cexNoExpiryTrialRecord : UserRecord :=
  { auth0Id := "u3", email := none, name := none, planStatus := "trial",
    trialEndsAt := none, stripeCustomerId := none,
    stripeSubscriptionId := none }

/-- Concrete reactivating subscription event for customer `cus1`. -/
def cexActiveSubscription : Subscription :=
  { id := "sub2", customer := "cus1", status := "active", trial_end := 0 }

/-- Concrete canceled subscription of customer `cus1`, as carried by a
`customer.subscription.deleted` event. -/
def cexDeletedSubscription : Subscription :=
  { id := "sub2", customer := "cus1", status := "canceled", trial_end := 0 }


/-! ### Helper lemmas about the store primitives -/

theorem updateFirst_length {α : Type} (p : α → Bool) (f : α → α) :
    ∀ l : List α, (updateFirst p f l).length = l.length
  | [] => rfl
  | a :: l => by
      by_cases h : p a
      · simp [updateFirst, h]
      · simp [updateFirst, h, updateFirst_length p f l]

theorem updateFirst_idem {α : Type} (p : α → Bool) (f : α → α)
    (hp : ∀ a, p a = true → p (f a) = true)
    (hf : ∀ a, p a = true → f (f a) = f a) :
    ∀ l : List α, updateFirst p f (updateFirst p f l) = updateFirst p f l
  | [] => rfl
  | a :: l => by
      by_cases h : p a
      · simp [updateFirst, h, hp a h, hf a h]
      · simp [updateFirst, h, updateFirst_idem p f hp hf l]

theorem find?_updateFirst_self {α : Type} (p : α → Bool) (f : α → α)
    (hp : ∀ a, p a = true → p (f a) = true) :
    ∀ (l : List α) (r : α), l.find? p = some r →
      (updateFirst p f l).find? p = some (f r)
  | [], r, h => by simp [List.find?] at h
  | a :: l, r, h => by
      simp only [updateFirst]
      by_cases hpa : p a
      · rw [List.find?_cons_of_pos _ hpa] at h
        obtain rfl := Option.some.inj h
        rw [if_pos hpa, List.find?_cons_of_pos _ (hp a hpa)]
      · rw [List.find?_cons_of_neg _ hpa] at h
        rw [if_neg hpa, List.find?_cons_of_neg _ hpa]
        exact find?_updateFirst_self p f hp l r h

theorem find?_updateFirst_of_preserve {α : Type} (p q : α → Bool) (f : α → α)
    (hq : ∀ a, q (f a) = q a) :
    ∀ (l : List α) (r : α), l.find? q = some r →
      (updateFirst p f l).find? q = some r ∨
        ((updateFirst p f l).find? q = some (f r) ∧ p r = true)
  | [], r, h => by simp [List.find?] at h
  | a :: l, r, h => by
      simp only [updateFirst]
      by_cases hpa : p a
      · rw [if_pos hpa]
        by_cases hqa : q a
        · rw [List.find?_cons_of_pos _ hqa] at h
          obtain rfl := Option.some.inj h
          right
          exact ⟨by rw [List.find?_cons_of_pos _ (by rw [hq a]; exact hqa)],
            hpa⟩
        · rw [List.find?_cons_of_neg _ hqa] at h
          left
          rw [List.find?_cons_of_neg _ (by rw [hq a]; exact hqa)]
          exact h
      · rw [if_neg hpa]
        by_cases hqa : q a
        · rw [List.find?_cons_of_pos _ hqa] at h
          obtain rfl := Option.some.inj h
          left
          rw [List.find?_cons_of_pos _ hqa]
        · rw [List.find?_cons_of_neg _ hqa] at h
          rw [List.find?_cons_of_neg _ hqa]
          exact find?_updateFirst_of_preserve p q f hq l r h

theorem find?_append_of_some {α : Type} (q : α → Bool) (l l' : List α)
    (r : α) (h : l.find? q = some r) : (l ++ l').find? q = some r := by
  rw [List.find?_append, h]
  rfl

theorem backfill_fields (email name : Option String) (r : UserRecord) :
    (backfill email name r).auth0Id = r.auth0Id ∧
      (backfill email name r).planStatus = r.planStatus ∧
      (backfill email name r).trialEndsAt = r.trialEndsAt ∧
      (backfill email name r).stripeCustomerId = r.stripeCustomerId ∧
      (backfill email name r).stripeSubscriptionId = r.stripeSubscriptionId :=
  ⟨rfl, rfl, rfl, rfl, rfl⟩

theorem ensureUserExists_of_absent (id : String) (email name : Option String)
    (now : Nat) (store : Store)
    (h : store.find? (byAuth0Id id) = none) :
    ensureUserExists id email name now store =
      (freshUser id email name now, store ++ [freshUser id email name now]) := by
  unfold ensureUserExists
  rw [h]

theorem ensureUserExists_of_found (id : String) (email name : Option String)
    (now : Nat) (store : Store) (u : UserRecord)
    (h : store.find? (byAuth0Id id) = some u) :
    ensureUserExists id email name now store =
      (backfill email name u,
        updateFirst (byAuth0Id id) (backfill email name) store) := by
  unfold ensureUserExists
  rw [h]

theorem gateStep_of_absent (id : String) (email name : Option String)
    (now : Nat) (store : Store)
    (h : store.find? (byAuth0Id id) = none) :
    gateStep id email name now store =
      checkUserPlan (freshUser id email name now) now
        (store ++ [freshUser id email name now]) := by
  unfold gateStep
  rw [ensureUserExists_of_absent id email name now store h]

theorem gateStep_of_found (id : String) (email name : Option String)
    (now : Nat) (store : Store) (u : UserRecord)
    (h : store.find? (byAuth0Id id) = some u) :
    gateStep id email name now store =
      checkUserPlan (backfill email name u) now
        (updateFirst (byAuth0Id id) (backfill email name) store) := by
  unfold gateStep
  rw [ensureUserExists_of_found id email name now store u h]

theorem checkUserPlan_fresh (id : String) (email name : Option String)
    (now : Nat) (st : Store) :
    checkUserPlan (freshUser id email name now) now st =
      (GateResult.allow, st) := by
  have hlt : ¬ (now + trialDurationMs < now) :=
    Nat.not_lt.mpr (Nat.le_add_right now trialDurationMs)
  unfold checkUserPlan freshUser
  simp [hlt]

theorem checkUserPlan_store_cases (user : UserRecord) (now : Nat)
    (store : Store) :
    (checkUserPlan user now store).2 = store ∨
      (checkUserPlan user now store).2 =
        updateFirst (byAuth0Id user.auth0Id)
          (fun r => { r with planStatus := "expired" }) store := by
  unfold checkUserPlan
  repeat' split
  all_goals first
    | (left; rfl)
    | (right; rfl)

theorem gateStep_preserves_expired (id : String) (email name : Option String)
    (now : Nat) (store : Store) (k : String) (r : UserRecord)
    (hfind : store.find? (byAuth0Id k) = some r)
    (hexp : r.planStatus = "expired") (r' : UserRecord)
    (hr' : (gateStep id email name now store).2.find? (byAuth0Id k) = some r') :
    r'.planStatus = "expired" := by
  cases h1 : store.find? (byAuth0Id id) with
  | none =>
      rw [gateStep_of_absent id email name now store h1,
        checkUserPlan_fresh id email name now] at hr'
      rw [find?_append_of_some (byAuth0Id k) store [freshUser id email name now]
        r hfind] at hr'
      obtain rfl := Option.some.inj hr'
      exact hexp
  | some u =>
      rw [gateStep_of_found id email name now store u h1] at hr'
      have h2 := find?_updateFirst_of_preserve (byAuth0Id id) (byAuth0Id k)
        (backfill email name) (fun a => rfl) store r hfind
      obtain ⟨rp, hrp, hrpexp⟩ : ∃ rp,
          (updateFirst (byAuth0Id id) (backfill email name) store).find?
            (byAuth0Id k) = some rp ∧ rp.planStatus = "expired" := by
        rcases h2 with h | ⟨h, _⟩
        · exact ⟨r, h, hexp⟩
        · exact ⟨backfill email name r, h,
            ((backfill_fields email name r).2.1).trans hexp⟩
      rcases checkUserPlan_store_cases (backfill email name u) now
          (updateFirst (byAuth0Id id) (backfill email name) store) with
        hclean | hupd
      · rw [hclean, hrp] at hr'
        obtain rfl := Option.some.inj hr'
        exact hrpexp
      · rw [hupd] at hr'
        have h3 := find?_updateFirst_of_preserve
          (byAuth0Id (backfill email name u).auth0Id) (byAuth0Id k)
          (fun x => { x with planStatus := "expired" }) (fun a => rfl)
          (updateFirst (byAuth0Id id) (backfill email name) store) rp hrp
        rcases h3 with h | ⟨h, _⟩
        · rw [h] at hr'
          obtain rfl := Option.some.inj hr'
          exact hrpexp
        · rw [h] at hr'
          obtain rfl := Option.some.inj hr'
          rfl

theorem specNewestText_cons_of_pos (runId : String) (m : ThreadMessage)
    (rest : List ThreadMessage) (h : claimMatches runId m = true) :
    specNewestText runId (m :: rest) =
      m.content.head?.map (fun c => c.textValue) := by
  unfold specNewestText
  rw [List.find?_cons_of_pos _ h]
  rfl

theorem specNewestText_cons_of_neg (runId : String) (m : ThreadMessage)
    (rest : List ThreadMessage) (h : claimMatches runId m = false) :
    specNewestText runId (m :: rest) = specNewestText runId rest := by
  unfold specNewestText
  rw [List.find?_cons_of_neg _ (by simp [h])]

theorem findAssistantText_eq_spec (runId : String) :
    ∀ msgs : List ThreadMessage,
      (∀ m ∈ msgs, m.role = "assistant" → m.run_id = runId → m.content ≠ []) →
      findAssistantText runId msgs = Except.ok (specNewestText runId msgs)
  | [], _ => rfl
  | m :: rest, h => by
      have hrest : ∀ m' ∈ rest, m'.role = "assistant" → m'.run_id = runId →
          m'.content ≠ [] := fun m' hm' => h m' (List.mem_cons_of_mem m hm')
      have ih := findAssistantText_eq_spec runId rest hrest
      unfold findAssistantText
      by_cases hg : (m.role == "assistant" && m.run_id == runId) = true
      · rw [if_pos hg]
        have hrr : m.role = "assistant" ∧ m.run_id = runId := by simpa using hg
        have hne := h m (List.mem_cons_self m rest) hrr.1 hrr.2
        split
        next hnil => exact absurd hnil hne
        next c cs hc =>
            by_cases ht : (c.type == "text") = true
            · rw [if_pos ht]
              have hm : claimMatches runId m = true := by
                simp [claimMatches, hg, hc]
                simpa using ht
              rw [specNewestText_cons_of_pos runId m rest hm, hc]
              rfl
            · rw [if_neg ht]
              have hm : claimMatches runId m = false := by
                simp [claimMatches, hg, hc]
                simpa using ht
              rw [specNewestText_cons_of_neg runId m rest hm]
              exact ih
      · rw [if_neg hg]
        have hgf : (m.role == "assistant" && m.run_id == runId) = false := by
          revert hg
          cases (m.role == "assistant" && m.run_id == runId) <;> simp
        have hm : claimMatches runId m = false := by
          unfold claimMatches
          rw [hgf, Bool.false_and]
        rw [specNewestText_cons_of_neg runId m rest hm]
        exact ih

theorem checkUserPlan_trial_expired (user : UserRecord) (now : Nat)
    (store : Store) (t : Nat) (hplan : user.planStatus = "trial")
    (hex : user.trialEndsAt = some t) (hlt : t < now) :
    checkUserPlan user now store =
      (GateResult.deny 403
         "Your trial has expired. Please upgrade to a premium plan." "expired",
       updateFirst (byAuth0Id user.auth0Id)
         (fun r => { r with planStatus := "expired" }) store) := by
  unfold checkUserPlan
  simp [hplan, hex, hlt]

/-! ### Claim theorems -/

/-- Claim C1 counterexample: for the trialing record `cexTrialRecord`
with `trialEndsAt = some 0` gated at time 1, the Gate denies with the
trial-expired reason and writes `planStatus = "expired"` back, but the
re-read record still carries `trialEndsAt = some 0`: the claim's
"trialExpiry cleared, … re-reading … shows no trialExpiry" is false on
the code, which only assigns `planStatus`. -/
theorem c1_trialExpiry_not_cleared_cex :
    (gateStep "u1" none none 1 [cexTrialRecord]).1 =
      GateResult.deny 403
        "Your trial has expired. Please upgrade to a premium plan."
        "expired" ∧
    ((gateStep "u1" none none 1 [cexTrialRecord]).2.find? (byAuth0Id "u1")).map
        (fun x => (x.planStatus, x.trialEndsAt)) = some ("expired", some 0) ∧
    ¬ ((gateStep "u1" none none 1 [cexTrialRecord]).2.find?
          (byAuth0Id "u1")).map (fun x => x.trialEndsAt) = some none := by
  decide

/-- Claim C1 (amended): for every entitlement record with
`planStatus = "trial"` and `trialEndsAt` strictly in the past at
request time, the Gate denies with the trial-expired reason and writes
the record back with `planStatus = "expired"` while leaving
`trialEndsAt` unchanged (not cleared), so a re-read shows
`planStatus = "expired"` with the original `trialEndsAt` still
present. -/
theorem c1_trial_expired_deny (id : String) (email name : Option String)
    (now : Nat) (store : Store) (u : UserRecord) (t : Nat)
    (hfind : store.find? (byAuth0Id id) = some u)
    (hplan : u.planStatus = "trial")
    (hexpiry : u.trialEndsAt = some t) (hpast : t < now) :
    (gateStep id email name now store).1 =
      GateResult.deny 403
        "Your trial has expired. Please upgrade to a premium plan."
        "expired" ∧
    ((gateStep id email name now store).2.find? (byAuth0Id id)).map
        (fun x => (x.planStatus, x.trialEndsAt)) = some ("expired", some t) := by
  have hb := backfill_fields email name u
  have hid : u.auth0Id = id := by
    have := List.find?_some hfind
    simpa [byAuth0Id] using this
  rw [gateStep_of_found id email name now store u hfind,
    checkUserPlan_trial_expired (backfill email name u) now _ t
      (hb.2.1.trans hplan) (hb.2.2.1.trans hexpiry) hpast]
  refine ⟨rfl, ?_⟩
  have h1 : (updateFirst (byAuth0Id id) (backfill email name) store).find?
      (byAuth0Id id) = some (backfill email name u) :=
    find?_updateFirst_self (byAuth0Id id) (backfill email name)
      (fun a ha => ha) store u hfind
  have h2 := find?_updateFirst_self (byAuth0Id id)
    (fun r => { r with planStatus := "expired" }) (fun a ha => ha)
    (updateFirst (byAuth0Id id) (backfill email name) store)
    (backfill email name u) h1
  rw [hb.1, hid, h2]
  simp [hb.2.2.1.trans hexpiry]

/-- Claim C1 witness: the amended theorem applied to the concrete
expired-trial store. -/
theorem c1_trial_expired_deny_witness :
    (gateStep "u1" none none 1 [cexTrialRecord]).1 =
      GateResult.deny 403
        "Your trial has expired. Please upgrade to a premium plan."
        "expired" ∧
    ((gateStep "u1" none none 1 [cexTrialRecord]).2.find? (byAuth0Id "u1")).map
        (fun x => (x.planStatus, x.trialEndsAt)) = some ("expired", some 0) :=
  c1_trial_expired_deny "u1" none none 1 [cexTrialRecord] cexTrialRecord 0
    (by decide) rfl rfl (by decide)

/-- Claim C10: a stored record with `planStatus = "trial"` and no
`trialEndsAt` value passes the Gate's plan check unchanged: the
`user.trialEndsAt &&` guard falls through to `next()`, treating the
state the data-model invariant rules out as an active trial. -/
theorem c10_trial_without_expiry_allows (user : UserRecord) (now : Nat)
    (store : Store) (hplan : user.planStatus = "trial")
    (hex : user.trialEndsAt = none) :
    checkUserPlan user now store = (GateResult.allow, store) := by
  unfold checkUserPlan
  simp [hplan, hex]

/-- Claim C10 witness: the theorem applied to the concrete
no-expiry trialing record. -/
theorem c10_trial_without_expiry_allows_witness :
    checkUserPlan cexNoExpiryTrialRecord 5 [] = (GateResult.allow, []) :=
  c10_trial_without_expiry_allows cexNoExpiryTrialRecord 5 [] rfl rfl

/-- Claim C8: the Gate allows a trialing record whose expiry is in the
future and a premium record, and performs no store mutation there; and
the trial-expiry write is the plan check's only mutation — on every
invocation the store is either untouched or rewritten exactly by the
expired-plan save of step 2. -/
theorem c8_allow_no_mutation :
    (∀ (user : UserRecord) (now : Nat) (store : Store),
        ((user.planStatus = "trial" ∧
            ∃ t, user.trialEndsAt = some t ∧ now < t) ∨
          user.planStatus = "premium") →
        checkUserPlan user now store = (GateResult.allow, store)) ∧
    (∀ (user : UserRecord) (now : Nat) (store : Store),
        (checkUserPlan user now store).2 = store ∨
          (checkUserPlan user now store).2 =
            updateFirst (byAuth0Id user.auth0Id)
              (fun r => { r with planStatus := "expired" }) store) := by
  constructor
  · intro user now store h
    rcases h with ⟨hplan, t, hex, hlt⟩ | hprem
    · have hnot : ¬ t < now := by omega
      unfold checkUserPlan
      simp [hplan, hex, hnot]
    · unfold checkUserPlan
      by_cases htr : user.planStatus = "trial"
      · rw [hprem] at htr
        exact absurd htr (by decide)
      · simp [htr, hprem]
  · intro user now store
    exact checkUserPlan_store_cases user now store

/-- Claim C8 witness: the allow part of the theorem applied to a
trialing record with a future expiry. -/
theorem c8_allow_no_mutation_witness :
    checkUserPlan cexActiveTrialRecord 5 [cexActiveTrialRecord] =
      (GateResult.allow, [cexActiveTrialRecord]) :=
  c8_allow_no_mutation.1 cexActiveTrialRecord 5 [cexActiveTrialRecord]
    (Or.inl ⟨rfl, 10, rfl, by decide⟩)

/-- Claim C4: a never-seen identity gets a record created with
`planStatus = "trial"` and `trialEndsAt` = creation time plus exactly
7 days (in milliseconds), appended once; a repeated call with an
identity already present returns the existing record with `planStatus`
and `trialEndsAt` untouched, keeps the store length (no second record)
and still finds exactly the returned record. -/
theorem c4_getOrCreate_trial_once :
    (∀ (id : String) (email name : Option String) (now : Nat) (store : Store),
        store.find? (byAuth0Id id) = none →
        (ensureUserExists id email name now store).1.planStatus = "trial" ∧
        (ensureUserExists id email name now store).1.trialEndsAt =
          some (now + 7 * 24 * 60 * 60 * 1000) ∧
        (ensureUserExists id email name now store).2 =
          store ++ [(ensureUserExists id email name now store).1]) ∧
    (∀ (id : String) (email name : Option String) (now : Nat) (store : Store)
        (r : UserRecord), store.find? (byAuth0Id id) = some r →
        (ensureUserExists id email name now store).1.planStatus =
          r.planStatus ∧
        (ensureUserExists id email name now store).1.trialEndsAt =
          r.trialEndsAt ∧
        (ensureUserExists id email name now store).2.length = store.length ∧
        (ensureUserExists id email name now store).2.find? (byAuth0Id id) =
          some (ensureUserExists id email name now store).1) := by
  constructor
  · intro id email name now store h
    rw [ensureUserExists_of_absent id email name now store h]
    exact ⟨rfl, rfl, rfl⟩
  · intro id email name now store r h
    rw [ensureUserExists_of_found id email name now store r h]
    exact ⟨(backfill_fields email name r).2.1,
      (backfill_fields email name r).2.2.1,
      updateFirst_length _ _ store,
      find?_updateFirst_self (byAuth0Id id) (backfill email name)
        (fun a ha => ha) store r h⟩

/-- Claim C4 witness: creation for a fresh identity and idempotence of
the repeated call, at concrete inputs. -/
theorem c4_getOrCreate_trial_once_witness :
    ((ensureUserExists "u9" none none 0 []).1.planStatus = "trial" ∧
      (ensureUserExists "u9" none none 0 []).1.trialEndsAt =
        some (0 + 7 * 24 * 60 * 60 * 1000) ∧
      (ensureUserExists "u9" none none 0 []).2 =
        [] ++ [(ensureUserExists "u9" none none 0 []).1]) ∧
    ((ensureUserExists "u1" none none 5 [cexTrialRecord]).1.planStatus =
        cexTrialRecord.planStatus ∧
      (ensureUserExists "u1" none none 5 [cexTrialRecord]).1.trialEndsAt =
        cexTrialRecord.trialEndsAt ∧
      (ensureUserExists "u1" none none 5 [cexTrialRecord]).2.length =
        [cexTrialRecord].length ∧
      (ensureUserExists "u1" none none 5 [cexTrialRecord]).2.find?
          (byAuth0Id "u1") =
        some (ensureUserExists "u1" none none 5 [cexTrialRecord]).1) :=
  ⟨c4_getOrCreate_trial_once.1 "u9" none none 0 [] rfl,
   c4_getOrCreate_trial_once.2 "u1" none none 5 [cexTrialRecord]
     cexTrialRecord (by decide)⟩

/-- Claim C5: every webhook event of the reconciler's variant set
is idempotent on the whole store — applying the same event twice
equals applying it once, for every store state (each handler writes
absolute field values and never changes the `stripeCustomerId` it is
keyed on). -/
theorem c5_webhook_idempotent (e : StripeEvent) (store : Store) :
    applyWebhook e (applyWebhook e store) = applyWebhook e store := by
  cases e with
  | subscriptionCreatedOrUpdated s =>
      exact updateFirst_idem (byCustomer s.customer)
        (applySubscriptionUpdate s) (fun a ha => ha) (fun a _ => rfl) store
  | subscriptionDeleted s =>
      exact updateFirst_idem (byCustomer s.customer) applySubscriptionDeleted
        (fun a ha => ha) (fun a _ => rfl) store
  | invoicePaid c => rfl
  | invoicePaymentFailed c =>
      exact updateFirst_idem (byCustomer c) applyInvoicePaymentFailed
        (fun a ha => ha) (fun a _ => rfl) store

/-- Claim C3 counterexample: for the record `cexBilledRecord` (trialing
with `trialEndsAt = some 999`, customer `cus1`), applying
`invoice.payment_failed` yields `planStatus = "expired"` but leaves
`trialEndsAt = some 999` in place: the claim's "trialExpiry cleared"
is false on the code for that event. -/
theorem c3_invoice_failed_keeps_trialExpiry_cex :
    ((applyWebhook (StripeEvent.invoicePaymentFailed "cus1")
        [cexBilledRecord]).find? (byCustomer "cus1")).map
      (fun x => (x.planStatus, x.trialEndsAt)) = some ("expired", some 999) ∧
    ¬ ((applyWebhook (StripeEvent.invoicePaymentFailed "cus1")
        [cexBilledRecord]).find? (byCustomer "cus1")).map
      (fun x => x.trialEndsAt) = some none := by
  decide

/-- Claim C3 (amended): on the record matched by the event's customer
reference, a subscription update with status `past_due`, `canceled` or
`unpaid` leaves `planStatus = "expired"` with `trialEndsAt` cleared;
`customer.subscription.deleted` leaves `planStatus = "expired"` with
`trialEndsAt` and `stripeSubscriptionId` cleared;
`invoice.payment_failed` sets `planStatus = "expired"` but leaves
`trialEndsAt` and `stripeSubscriptionId` unchanged (not cleared); and
deleted applied after an `active` update yields
`planStatus = "expired"` with `trialEndsAt` and `stripeSubscriptionId`
both absent. -/
theorem c3_expiring_events (store : Store) (c : String) (r : UserRecord)
    (hfind : store.find? (byCustomer c) = some r) :
    (∀ s : Subscription, s.customer = c →
        (s.status = "past_due" ∨ s.status = "canceled" ∨
          s.status = "unpaid") →
        ((applyWebhook (StripeEvent.subscriptionCreatedOrUpdated s)
            store).find? (byCustomer c)).map
          (fun x => (x.planStatus, x.trialEndsAt)) =
          some ("expired", none)) ∧
    (∀ s : Subscription, s.customer = c →
        ((applyWebhook (StripeEvent.subscriptionDeleted s) store).find?
            (byCustomer c)).map
          (fun x => (x.planStatus, x.trialEndsAt, x.stripeSubscriptionId)) =
          some ("expired", none, none)) ∧
    (((applyWebhook (StripeEvent.invoicePaymentFailed c) store).find?
        (byCustomer c)).map
      (fun x => (x.planStatus, x.trialEndsAt, x.stripeSubscriptionId)) =
      some ("expired", r.trialEndsAt, r.stripeSubscriptionId)) ∧
    (∀ s1 s2 : Subscription, s1.customer = c → s1.status = "active" →
        s2.customer = c →
        ((applyWebhook (StripeEvent.subscriptionDeleted s2)
            (applyWebhook (StripeEvent.subscriptionCreatedOrUpdated s1)
              store)).find? (byCustomer c)).map
          (fun x => (x.planStatus, x.trialEndsAt, x.stripeSubscriptionId)) =
          some ("expired", none, none)) := by
  refine ⟨?_, ?_, ?_, ?_⟩
  · intro s hc hst
    simp only [applyWebhook]
    rw [hc, find?_updateFirst_self (byCustomer c) (applySubscriptionUpdate s)
      (fun a ha => ha) store r hfind]
    rcases hst with h' | h' | h' <;> simp [applySubscriptionUpdate, h']
  · intro s hc
    simp only [applyWebhook]
    rw [hc, find?_updateFirst_self (byCustomer c) applySubscriptionDeleted
      (fun a ha => ha) store r hfind]
    rfl
  · simp only [applyWebhook]
    rw [find?_updateFirst_self (byCustomer c) applyInvoicePaymentFailed
      (fun a ha => ha) store r hfind]
    rfl
  · intro s1 s2 hc1 _ hc2
    simp only [applyWebhook]
    rw [hc1, hc2]
    have h1 := find?_updateFirst_self (byCustomer c)
      (applySubscriptionUpdate s1) (fun a ha => ha) store r hfind
    rw [find?_updateFirst_self (byCustomer c) applySubscriptionDeleted
      (fun a ha => ha) _ _ h1]
    rfl

/-- Claim C3 witness: deleted-event clearing and the
deleted-after-active composition, at the concrete billed record. -/
theorem c3_expiring_events_witness :
    ((applyWebhook (StripeEvent.subscriptionDeleted cexDeletedSubscription)
        [cexBilledRecord]).find? (byCustomer "cus1")).map
      (fun x => (x.planStatus, x.trialEndsAt, x.stripeSubscriptionId)) =
      some ("expired", none, none) ∧
    ((applyWebhook (StripeEvent.subscriptionDeleted cexDeletedSubscription)
        (applyWebhook
          (StripeEvent.subscriptionCreatedOrUpdated cexActiveSubscription)
          [cexBilledRecord])).find? (byCustomer "cus1")).map
      (fun x => (x.planStatus, x.trialEndsAt, x.stripeSubscriptionId)) =
      some ("expired", none, none) :=
  ⟨(c3_expiring_events [cexBilledRecord] "cus1" cexBilledRecord
      (by decide)).2.1 cexDeletedSubscription rfl,
   (c3_expiring_events [cexBilledRecord] "cus1" cexBilledRecord
      (by decide)).2.2.2 cexActiveSubscription cexDeletedSubscription
      rfl rfl rfl⟩

/-- Claim C9: a record whose plan is `"expired"` stays expired under
every Gate invocation (at every request time) and under every billing
event other than a subscription update with status `active` or
`trialing` matching the record's customer reference: if the record
found at the same identity key is no longer expired after a core
operation, that operation was such a successful-payment event. -/
theorem c9_expired_monotone (op : CoreOp) (store : Store) (k : String)
    (r r' : UserRecord)
    (hfind : store.find? (byAuth0Id k) = some r)
    (hexp : r.planStatus = "expired")
    (hfind' : (stepStore op store).find? (byAuth0Id k) = some r')
    (hne : r'.planStatus ≠ "expired") :
    isRevivalFor r op := by
  cases op with
  | gate id email name now =>
      exact absurd (gateStep_preserves_expired id email name now store k r
        hfind hexp r' hfind') hne
  | billing e =>
      cases e with
      | subscriptionCreatedOrUpdated s =>
          simp only [stepStore, applyWebhook] at hfind'
          rcases find?_updateFirst_of_preserve (byCustomer s.customer)
              (byAuth0Id k) (applySubscriptionUpdate s) (fun a => rfl)
              store r hfind with h | ⟨h, hp⟩
          · rw [h] at hfind'
            obtain rfl := Option.some.inj hfind'
            exact absurd hexp hne
          · rw [h] at hfind'
            obtain rfl := Option.some.inj hfind'
            by_cases ha : s.status = "active"
            · exact ⟨Or.inl ha, by simpa [byCustomer] using hp⟩
            · by_cases htr : s.status = "trialing"
              · exact ⟨Or.inr htr, by simpa [byCustomer] using hp⟩
              · exact absurd (by simp [applySubscriptionUpdate, ha, htr]) hne
      | subscriptionDeleted s =>
          simp only [stepStore, applyWebhook] at hfind'
          rcases find?_updateFirst_of_preserve (byCustomer s.customer)
              (byAuth0Id k) applySubscriptionDeleted (fun a => rfl)
              store r hfind with h | ⟨h, _⟩
          · rw [h] at hfind'
            obtain rfl := Option.some.inj hfind'
            exact absurd hexp hne
          · rw [h] at hfind'
            obtain rfl := Option.some.inj hfind'
            exact absurd rfl hne
      | invoicePaid c =>
          simp only [stepStore, applyWebhook] at hfind'
          obtain rfl := Option.some.inj (hfind.symm.trans hfind')
          exact absurd hexp hne
      | invoicePaymentFailed c =>
          simp only [stepStore, applyWebhook] at hfind'
          rcases find?_updateFirst_of_preserve (byCustomer c)
              (byAuth0Id k) applyInvoicePaymentFailed (fun a => rfl)
              store r hfind with h | ⟨h, _⟩
          · rw [h] at hfind'
            obtain rfl := Option.some.inj hfind'
            exact absurd hexp hne
          · rw [h] at hfind'
            obtain rfl := Option.some.inj hfind'
            exact absurd rfl hne

/-- Claim C9 witness: the theorem applied to the concrete expired
record leaving the expired state through an `active` subscription
update on its customer reference. -/
theorem c9_expired_monotone_witness :
    isRevivalFor cexExpiredRecord
      (CoreOp.billing
        (StripeEvent.subscriptionCreatedOrUpdated cexActiveSubscription)) :=
  c9_expired_monotone
    (CoreOp.billing
      (StripeEvent.subscriptionCreatedOrUpdated cexActiveSubscription))
    [cexExpiredRecord] "u1" cexExpiredRecord
    (applySubscriptionUpdate cexActiveSubscription cexExpiredRecord)
    (by decide) rfl (by decide) (by decide)

/-- Claim C2 counterexample: for the completed run `cexCompletedRun`
and a message list holding one assistant message of this run with an
empty `content` array, no message satisfies the claim's selection
conditions, yet the handler evaluates `msg.content[0].type` on that
message, the thrown `TypeError` reaches the catch-all, and the turn
returns the 500 error instead of succeeding with the fallback string:
the claim's "the turn still succeeds and returns the fixed fallback
string" is false on the code there. -/
theorem c2_empty_content_cex :
    cexCompletedRun.status = "completed" ∧
    claimMatches cexCompletedRun.id cexEmptyContentMsg = false ∧
    respondAfterPolling cexCompletedRun [cexEmptyContentMsg] =
      { status := 500, body := ChatBody.caughtServerError } ∧
    ¬ respondAfterPolling cexCompletedRun [cexEmptyContentMsg] =
      { status := 200, body := ChatBody.response fallbackReplyText } := by
  decide

/-- Claim C2 (amended): for every completed run, provided every listed
assistant message attributed to this run has a nonempty content array,
the handler returns 200 with the text of the newest (first listed)
message whose role is assistant, whose run reference equals this run's
id and whose leading content part is text, and returns 200 with the
fixed fallback string when no message matches; an empty-content
assistant message of this run instead crashes extraction into a 500. -/
theorem c2_completed_reply (run : RunState) (msgs : List ThreadMessage)
    (hstatus : run.status = "completed")
    (hcontent : ∀ m ∈ msgs, m.role = "assistant" → m.run_id = run.id →
      m.content ≠ []) :
    respondAfterPolling run msgs =
      { status := 200,
        body := ChatBody.response
          ((specNewestText run.id msgs).getD fallbackReplyText) } := by
  unfold respondAfterPolling
  rw [if_neg (by rw [hstatus]; decide)]
  rw [findAssistantText_eq_spec run.id msgs hcontent]
  cases specNewestText run.id msgs <;> rfl

/-- Claim C2 witness: the amended theorem applied to a completed run
with one matching assistant text message. -/
theorem c2_completed_reply_witness :
    respondAfterPolling cexCompletedRun [cexTextMsg] =
      { status := 200,
        body := ChatBody.response
          ((specNewestText cexCompletedRun.id [cexTextMsg]).getD
            fallbackReplyText) } :=
  c2_completed_reply cexCompletedRun [cexTextMsg] rfl (by decide)

/-- Claim C6: a run whose polled status is `failed` with
`last_error = {code: c, message: m}` yields exactly the classified
500 `assistantRunFailed` response carrying code `c` and message `m`,
and in particular never a 200 reply text. -/
theorem c6_run_failed_classified (run : RunState) (msgs : List ThreadMessage)
    (c m : String) (hstatus : run.status = "failed")
    (herr : run.last_error = some { code := c, message := m }) :
    respondAfterPolling run msgs =
      { status := 500, body := ChatBody.assistantRunFailed m c } ∧
    ∀ t : String, respondAfterPolling run msgs ≠
      { status := 200, body := ChatBody.response t } := by
  have h1 : respondAfterPolling run msgs =
      { status := 500, body := ChatBody.assistantRunFailed m c } := by
    unfold respondAfterPolling
    rw [if_pos hstatus, herr]
  refine ⟨h1, fun t hcontra => ?_⟩
  rw [h1] at hcontra
  simp at hcontra

/-- Claim C6 witness: the theorem applied to the concrete failed run
with `last_error = {code: "x", message: "y"}`. -/
theorem c6_run_failed_classified_witness :
    respondAfterPolling cexFailedRun [] =
      { status := 500, body := ChatBody.assistantRunFailed "y" "x" } :=
  (c6_run_failed_classified cexFailedRun [] "x" "y" rfl rfl).1

/-- Claim C7: a requires-action pause with a present `required_action`
produces exactly one submitted batch, namely one output per pending
tool call in order, each tagged with that call's id, and every call
whose name is neither `get_current_weather` nor `get_time` receives
the fixed dummy placeholder output rather than failing the turn. -/
theorem c7_requires_action_batch (timeStr : String) (run : RunState)
    (calls : List ToolCall) (hstatus : run.status = "requires_action")
    (hcalls : run.requiredActionToolCalls = some calls) :
    requiresActionStep timeStr run =
      some (computeToolOutputs timeStr calls) ∧
    List.Forall₂
      (fun (tc : ToolCall) (out : ToolOutput) =>
        out.tool_call_id = tc.id ∧
        (tc.functionName ≠ "get_current_weather" →
          tc.functionName ≠ "get_time" → out.output = dummyToolOutput))
      calls (computeToolOutputs timeStr calls) := by
  constructor
  · unfold requiresActionStep
    rw [if_pos hstatus, hcalls]
    rfl
  · unfold computeToolOutputs
    rw [List.forall₂_map_right_iff, List.forall₂_same]
    intro tc _
    refine ⟨rfl, fun h1 h2 => ?_⟩
    unfold dispatchToolCall
    rw [if_neg h1, if_neg h2]

/-- Claim C7 witness: the theorem applied to the concrete pause on a
single unknown tool call. -/
theorem c7_requires_action_batch_witness :
    requiresActionStep "12:00:00" cexRequiresActionRun =
      some (computeToolOutputs "12:00:00" [cexUnknownToolCall]) ∧
    List.Forall₂
      (fun (tc : ToolCall) (out : ToolOutput) =>
        out.tool_call_id = tc.id ∧
        (tc.functionName ≠ "get_current_weather" →
          tc.functionName ≠ "get_time" → out.output = dummyToolOutput))
      [cexUnknownToolCall]
      (computeToolOutputs "12:00:00" [cexUnknownToolCall]) :=
  c7_requires_action_batch "12:00:00" cexRequiresActionRun
    [cexUnknownToolCall] rfl rfl
